import Mathlib

/-!
Verification development for the ExcelToJSON service (src/app.py).
The request handler get_data is shallowly embedded: query parameters are raw
optional strings, the remote fetch and the pandas parsers are abstracted as an
oracle (World), and the pagination arithmetic, format dispatch, NaN
normalization and serialization are translated directly from the source.
-/

deriving instance DecidableEq for Except

namespace ExcelToJSON

/-- A cell value of the in-memory table, as pandas would hold it:
strings, integers, booleans, date values, the NaN missing marker, and None. -/
inductive Cell where
  | str (s : String)
  | int (n : Int)
  | bool (b : Bool)
  | date (iso : String)
  | nan
  | null
deriving DecidableEq

/-- A JSON value as produced by the serializer. -/
inductive Json where
  | null
  | str (s : String)
  | int (n : Int)
  | bool (b : Bool)
deriving DecidableEq

/-- The decoded table: ordered column names and ordered rows of cells. -/
structure Table where
  cols : List String
  rows : List (List Cell)
deriving DecidableEq

/-- One replacement step of df.replace with np.nan mapped to None. -/
def replaceCell : Cell → Cell
  | .nan => .null
  | c => c

/-- The table after df.replace is applied to it (line 118 of app.py). -/
def replaceNaN (t : Table) : Table :=
  ⟨t.cols, t.rows.map (List.map replaceCell)⟩

/-- Serialization of a single cell to JSON, following the behavior of
pandas to_json together with CustomJSONEncoder (lines 25-40 of app.py):
None and NaN become JSON null, dates become ISO strings. -/
def serializeCell : Cell → Json
  | .str s => .str s
  | .int n => .int n
  | .bool b => .bool b
  | .date iso => .str iso
  | .nan => .null
  | .null => .null

/-- One record of the to_json conversion: column names paired with
serialized cell values, in column order. -/
def rowToJson (cols : List String) (r : List Cell) : List (String × Json) :=
  List.zipWith (fun c v => (c, serializeCell v)) cols r

/-- Decimal digits to a natural number. -/
def digitsToNat (l : List Char) : Nat :=
  l.foldl (fun a c => 10 * a + (c.toNat - 48)) 0

/-- Python int(string): surrounding whitespace stripped, an optional sign,
then a nonempty run of decimal digits; anything else raises ValueError,
modelled as none. -/
def pyParseInt (s : String) : Option Int :=
  let t := ((s.toList.dropWhile Char.isWhitespace).reverse.dropWhile Char.isWhitespace).reverse
  match t with
  | '-' :: rest =>
      if rest ≠ [] ∧ rest.all Char.isDigit then some (-(digitsToNat rest : Int)) else none
  | '+' :: rest =>
      if rest ≠ [] ∧ rest.all Char.isDigit then some ((digitsToNat rest : Int)) else none
  | l =>
      if l ≠ [] ∧ l.all Char.isDigit then some ((digitsToNat l : Int)) else none

/-- The raw query parameters of a request: url, page, rows_per_page,
each absent or a raw string. -/
structure Request where
  url : Option String
  page : Option String
  rows_per_page : Option String

/-- The page parameter as the handler parses it (line 69 of app.py):
default 1 when absent, else Python int parsing of the raw string. -/
def pageParam (req : Request) : Option Int :=
  match req.page with
  | none => some 1
  | some s => pyParseInt s

/-- The rows_per_page parameter as the handler parses it (line 77 of
app.py): default 100 when absent, else Python int parsing of the raw string. -/
def rppParam (req : Request) : Option Int :=
  match req.rows_per_page with
  | none => some 100
  | some s => pyParseInt s

/-- The upper clamp of rows_per_page (lines 80-83 of app.py): values above
5000 are replaced by 5000; nothing else is changed. -/
def clampRpp (n : Int) : Int :=
  if n > 5000 then 5000 else n

/-- The validation stage of get_data (lines 65-92 of app.py), in source
order: parse page, parse rows_per_page and clamp it, then require a
nonempty url. -/
def validateParams (req : Request) : Except String (String × Int × Int) :=
  match pageParam req with
  | none => .error "Page parameter must be a valid integer"
  | some page =>
    match rppParam req with
    | none => .error "Rows per page parameter must be a valid integer"
    | some r0 =>
      if req.url.getD "" = "" then .error "URL parameter is required"
      else .ok (req.url.getD "", page, clampRpp r0)

/-- The characters after the last dot of a string, the whole string when it
has no dot: Python split on a dot, last element. -/
def afterLastDot (s : String) : List Char :=
  s.toList.foldl (fun acc c => if c = '.' then [] else acc ++ [c]) []

/-- The detected extension (line 102 of app.py): the last element of the
url split on dots, lowercased. -/
def fileExtension (s : String) : String :=
  String.mk ((afterLastDot s).map Char.toLower)

/-- The two supported parser families. -/
inductive FileFormat where
  | csv
  | excel
deriving DecidableEq

/-- Format dispatch on the extension (lines 106-115 of app.py). -/
def detectFormat (ext : String) : Option FileFormat :=
  if ext = "csv" then some .csv
  else if ext = "xlsx" ∨ ext = "xls" then some .excel
  else none

/-- The ceiling of the true division of two integers, as Python math.ceil
computes total_pages (line 123 of app.py): the exact ceiling of t / r, written with
integer division (for a positive divisor, Euclidean division of the negation;
for a negative divisor, Euclidean division is already the ceiling). The
lemma pyCeil_eq_ceil below checks this against the rational ceiling. -/
def pyCeil (t r : Int) : Int :=
  if 0 ≤ r then -((-t) / r) else t / r

/-- The pagination stage (lines 122-134 of app.py): computes total_pages,
validates the page number, and returns (total_pages, start_idx, end_idx). -/
def paginate (total_rows page rpp : Int) : Except String (Int × Int × Int) :=
  let tp := pyCeil total_rows rpp
  if page < 1 ∨ (total_rows > 0 ∧ page > tp) then
    .error ("Invalid page number. Valid range: 1-" ++ toString tp)
  else
    .ok (tp, (page - 1) * rpp, min ((page - 1) * rpp + rpp) total_rows)

/-- Normalization of a Python slice endpoint against a length n: negative
indices count from the end and are clamped at 0, nonnegative ones are
clamped at n. -/
def pyIdx (n : Nat) (i : Int) : Nat :=
  if i < 0 then ((n : Int) + i).toNat else min i.toNat n

/-- Python list slicing xs[a:b] (df.iloc at line 135 of app.py). -/
def pySlice {α : Type} (xs : List α) (a b : Int) : List α :=
  (xs.take (pyIdx xs.length b)).drop (pyIdx xs.length a)

/-- The pagination metadata of a successful response (lines 164-169). -/
structure Pagination where
  current_page : Int
  total_pages : Int
  total_rows : Int
  rows_per_page : Int
deriving DecidableEq

/-- The HTTP response: a success envelope with data rows and pagination
metadata, or an error with a status code and message body. -/
inductive Response where
  | ok (data : List (List (String × Json))) (pagination : Pagination)
  | err (status : Nat) (msg : String)
deriving DecidableEq

/-- The environment of a request: the outcome of the HTTP fetch and of the
two pandas parsers, abstracted as functions of the url and payload. -/
structure World where
  fetch : String → Except String String
  parseCsv : String → Except String Table
  parseExcel : String → Except String Table

/-- Dispatch to the parser selected by the detected format
(lines 106-111 of app.py). -/
def decodeTable (w : World) (fmt : FileFormat) (payload : String) : Except String Table :=
  match fmt with
  | .csv => w.parseCsv payload
  | .excel => w.parseExcel payload

/-- The full request handler get_data (lines 50-185 of app.py): validate
parameters, fetch, dispatch on the extension, decode, replace NaN, paginate,
slice, serialize each row and append the pushDate field. A rows_per_page of
zero reaches the total_pages division and raises ZeroDivisionError, caught
by the generic handler as a 500 response. -/
def get_data (w : World) (today : String) (req : Request) : Response :=
  match validateParams req with
  | .error msg => .err 400 msg
  | .ok (url, page, rpp) =>
    match w.fetch url with
    | .error e => .err 400 ("Error fetching file: " ++ e)
    | .ok payload =>
      match detectFormat (fileExtension url) with
      | none => .err 400 "Unsupported file format. Only .xlsx, .xls, and .csv are supported"
      | some fmt =>
        match decodeTable w fmt payload with
        | .error e => .err 500 ("Error processing file: " ++ e)
        | .ok df0 =>
          let df := replaceNaN df0
          let total_rows : Int := df.rows.length
          if rpp = 0 then
            .err 500 "Error processing file: integer division or modulo by zero"
          else
            match paginate total_rows page rpp with
            | .error msg => .err 400 msg
            | .ok (tp, s, e) =>
              let pageData := pySlice df.rows s e
              let data := pageData.map
                (fun r => rowToJson df.cols r ++ [("pushDate", Json.str today)])
              .ok data ⟨page, tp, total_rows, rpp⟩

/-- A concrete environment whose parser yields a header-only table
(a CSV with zero data rows), used to exercise the handler. -/
def emptyCsvWorld : World :=
  ⟨fun _ => .ok "id,name", fun _ => .ok ⟨["id", "name"], []⟩, fun _ => .ok ⟨[], []⟩⟩

/-- A one-row table with a single id column. -/
def oneRowTable : Table :=
  ⟨["id"], [[Cell.int 1]]⟩

/-- A concrete environment whose parser yields oneRowTable. -/
def oneRowWorld : World :=
  ⟨fun _ => .ok "id", fun _ => .ok oneRowTable, fun _ => .ok oneRowTable⟩

/-! Arithmetic facts about pyCeil. -/

/-- For a positive divisor, pyCeil agrees with the exact rational ceiling,
which is what math.ceil of Python true division computes. -/
lemma pyCeil_eq_ceil (t r : Int) (hr : 0 < r) : pyCeil t r = ⌈(t : ℚ) / (r : ℚ)⌉ := by
  have h0 : (0 : ℚ) < (r : ℚ) := by exact_mod_cast hr
  have hid : r * ((-t) / r) + (-t) % r = -t := Int.ediv_add_emod (-t) r
  have hm0 : 0 ≤ (-t) % r := Int.emod_nonneg (-t) hr.ne'
  have hmr : (-t) % r < r := Int.emod_lt_of_pos (-t) hr
  have hidQ : (r : ℚ) * (((-t) / r : Int) : ℚ) + (((-t) % r : Int) : ℚ) = -(t : ℚ) := by
    exact_mod_cast hid
  have hm0Q : (0 : ℚ) ≤ (((-t) % r : Int) : ℚ) := by exact_mod_cast hm0
  have hmrQ : (((-t) % r : Int) : ℚ) < (r : ℚ) := by exact_mod_cast hmr
  rw [pyCeil, if_pos hr.le, eq_comm, Int.ceil_eq_iff]
  constructor
  · rw [lt_div_iff₀ h0]
    push_cast
    nlinarith
  · rw [div_le_iff₀ h0]
    push_cast
    nlinarith

/-- The quotient times the divisor reaches the dividend: t ≤ pyCeil t r * r. -/
lemma le_pyCeil_mul (t r : Int) (hr : 0 < r) : t ≤ pyCeil t r * r := by
  have hid : r * ((-t) / r) + (-t) % r = -t := Int.ediv_add_emod (-t) r
  have hm0 : 0 ≤ (-t) % r := Int.emod_nonneg (-t) hr.ne'
  rw [pyCeil, if_pos hr.le]
  nlinarith

/-- One page less does not reach the dividend: (pyCeil t r - 1) * r < t. -/
lemma pyCeil_sub_one_mul_lt (t r : Int) (hr : 0 < r) : (pyCeil t r - 1) * r < t := by
  have hid : r * ((-t) / r) + (-t) % r = -t := Int.ediv_add_emod (-t) r
  have hmr : (-t) % r < r := Int.emod_lt_of_pos (-t) hr
  rw [pyCeil, if_pos hr.le]
  nlinarith

/-- A nonempty table has at least one page. -/
lemma one_le_pyCeil (t r : Int) (ht : 0 < t) (hr : 0 < r) : 1 ≤ pyCeil t r := by
  by_contra h
  have hle : pyCeil t r ≤ 0 := by omega
  have := le_pyCeil_mul t r hr
  nlinarith

/-- An empty table has zero pages. -/
lemma pyCeil_zero_left (r : Int) : pyCeil 0 r = 0 := by
  simp [pyCeil]

/-- Whatever the validator returns, rows_per_page went through the clamp. -/
lemma validateParams_ok_rpp (req : Request) (url : String) (page rpp : Int)
    (h : validateParams req = .ok (url, page, rpp)) :
    ∃ r0, rppParam req = some r0 ∧ rpp = clampRpp r0 := by
  rcases hp : pageParam req with _ | p
  · simp [validateParams, hp] at h
  · rcases hr : rppParam req with _ | r0
    · simp [validateParams, hp, hr] at h
    · by_cases hu : req.url.getD "" = ""
      · simp [validateParams, hp, hr, hu] at h
      · simp only [validateParams, hp, hr, if_neg hu, Except.ok.injEq,
          Prod.mk.injEq] at h
        exact ⟨r0, rfl, h.2.2.symm⟩

/-- Claim C2 (corrected), counterexample: the request with rows_per_page
given as the string 0 passes validation unrejected and unclamped, so the
validator does deliver a rows_per_page outside the range from 1 to 5000. -/
theorem validateParams_accepts_zero_rpp :
    validateParams ⟨some "http://h/f.csv", none, some "0"⟩
      = Except.ok ("http://h/f.csv", 1, 0) ∧ ¬ (1 ≤ (0 : Int)) := by
  decide

/-- Claim C2 (amended): the validator, given raw string query parameters,
either fails with a validation error or produces a rows_per_page that is an
integer at most 5000; values above 5000 are clamped, but no lower bound is
enforced, so zero and negative values pass validation unchanged. -/
theorem validateParams_rpp_le_5000 (req : Request) (url : String) (page rpp : Int)
    (h : validateParams req = .ok (url, page, rpp)) : rpp ≤ 5000 := by
  obtain ⟨r0, _, hc⟩ := validateParams_ok_rpp req url page rpp h
  rw [hc, clampRpp]
  split <;> omega

/-- Witness for C2: a concrete request accepted by the validator, whose
rows_per_page obeys the amended bound. -/
theorem validateParams_rpp_le_5000_witness :
    validateParams ⟨some "http://h/f.csv", some "2", some "6000"⟩
      = Except.ok ("http://h/f.csv", 2, 5000) ∧ (5000 : Int) ≤ 5000 :=
  ⟨by decide, validateParams_rpp_le_5000 ⟨some "http://h/f.csv", some "2", some "6000"⟩
      "http://h/f.csv" 2 5000 (by decide)⟩

/-- Claim C6 (confirmed): when rows_per_page parses as an integer above
5000, and page parses and a url is present, validation succeeds with
rows_per_page silently clamped to 5000; the request is not rejected. -/
theorem validateParams_clamps_large_rpp (u : String) (p? : Option String) (s : String)
    (page n : Int) (hu : u ≠ "")
    (hp : pageParam ⟨some u, p?, some s⟩ = some page)
    (hs : pyParseInt s = some n) (hn : 5000 < n) :
    validateParams ⟨some u, p?, some s⟩ = .ok (u, page, 5000) := by
  have hr : rppParam ⟨some u, p?, some s⟩ = some n := hs
  simp only [validateParams, hp, hr, Option.getD_some, if_neg hu, clampRpp, if_pos hn]

/-- Witness for C6: rows_per_page requested as 6000 is clamped to 5000 and
the request proceeds. -/
theorem validateParams_clamps_large_rpp_witness :
    validateParams ⟨some "http://h/f.csv", none, some "6000"⟩
      = .ok ("http://h/f.csv", 1, 5000) :=
  validateParams_clamps_large_rpp "http://h/f.csv" none "6000" 1 6000
    (by decide) (by decide) (by decide) (by decide)

/-- Claim C4 (confirmed): for a nonempty table and a positive
rows_per_page, requesting page equal to total_pages (the ceiling of
total_rows over rows_per_page) is accepted by the paginator and returns the
final, possibly short, page: end_idx equals total_rows. -/
theorem paginate_last_page_reaches_total (t rpp : Int) (ht : 0 < t) (hr : 1 ≤ rpp) :
    paginate t (pyCeil t rpp) rpp
      = .ok (pyCeil t rpp, (pyCeil t rpp - 1) * rpp, t) := by
  have hr0 : 0 < rpp := hr
  have h1 : 1 ≤ pyCeil t rpp := one_le_pyCeil t rpp ht hr0
  have h2 : t ≤ pyCeil t rpp * rpp := le_pyCeil_mul t rpp hr0
  unfold paginate
  rw [if_neg (by push_neg; omega)]
  have he : min ((pyCeil t rpp - 1) * rpp + rpp) t = t := by
    rw [min_eq_right]
    nlinarith
  rw [he]

/-- Witness for C4: a three-row table with two rows per page has two pages,
and requesting page 2 returns rows with end_idx 3 = total_rows. -/
theorem paginate_last_page_reaches_total_witness :
    paginate 3 (pyCeil 3 2) 2 = .ok (pyCeil 3 2, (pyCeil 3 2 - 1) * 2, 3) :=
  paginate_last_page_reaches_total 3 2 (by decide) (by decide)

/-- Claim C1 (corrected), counterexample: with an empty table (total_rows
= 0) the paginator accepts page 2 with the validated rows_per_page 100, yet
computes start_idx = 100 and end_idx = 0, so start_idx ≤ end_idx fails. -/
theorem paginate_bounds_violated_on_empty :
    paginate 0 2 100 = Except.ok (0, 100, 0) ∧ ¬ ((100 : Int) ≤ 0) := by
  decide

/-- Claim C1 (amended): for every request the paginator accepts with a
validated rows_per_page in the range from 1 to 5000, if total_rows > 0 the
slice bounds satisfy 0 ≤ start_idx ≤ end_idx ≤ total_rows and the page
length end_idx - start_idx lies between 0 and rows_per_page; if total_rows
= 0 then end_idx = 0 while start_idx may exceed it, and in every accepted
case the number of rows the slice actually returns is at most
rows_per_page. -/
theorem paginate_accepted_bounds (t page rpp tp s e : Int)
    (ht : 0 ≤ t) (hr1 : 1 ≤ rpp) (hr2 : rpp ≤ 5000)
    (h : paginate t page rpp = .ok (tp, s, e)) :
    (0 < t → 0 ≤ s ∧ s ≤ e ∧ e ≤ t ∧ 0 ≤ e - s ∧ e - s ≤ rpp)
    ∧ (t = 0 → 0 ≤ s ∧ e = 0)
    ∧ ∀ rows : List (List Cell), (rows.length : Int) = t →
        (pySlice rows s e).length ≤ rpp.toNat := by
  simp only [paginate] at h
  split at h
  · exact absurd h (by simp)
  · rename_i hcond
    push_neg at hcond
    obtain ⟨hp1, hcond2⟩ := hcond
    simp only [Except.ok.injEq, Prod.mk.injEq] at h
    obtain ⟨htp, hs, he⟩ := h
    have hp1' : 1 ≤ page := by omega
    have hs0 : 0 ≤ s := by
      rw [← hs]
      exact mul_nonneg (by omega) (by omega)
    constructor
    · intro htpos
      have hle : page ≤ pyCeil t rpp := hcond2 htpos
      have hlt : s < t := by
        rw [← hs]
        calc (page - 1) * rpp ≤ (pyCeil t rpp - 1) * rpp :=
              mul_le_mul_of_nonneg_right (by omega) (by omega)
          _ < t := pyCeil_sub_one_mul_lt t rpp (by omega)
      omega
    · constructor
      · intro ht0
        omega
      · intro rows hlen
        have he0 : 0 ≤ e := by omega
        have het : e ≤ t := by omega
        have hesr : e ≤ s + rpp := by omega
        simp only [pySlice, pyIdx, List.length_drop, List.length_take]
        rw [if_neg (show ¬ e < 0 by omega), if_neg (show ¬ s < 0 by omega)]
        omega

/-- Witness for C1: a three-row table, page 2 of 2 rows each, is accepted
with start_idx 2 and end_idx 3, and the slice returns at most 2 rows. -/
theorem paginate_accepted_bounds_witness :
    (0 ≤ (2 : Int) ∧ (2 : Int) ≤ 3 ∧ (3 : Int) ≤ 3 ∧ 0 ≤ (3 : Int) - 2
      ∧ (3 : Int) - 2 ≤ 2)
    ∧ (pySlice [[Cell.int 1], [Cell.int 2], [Cell.int 3]] 2 3).length
        ≤ (2 : Int).toNat :=
  ⟨(paginate_accepted_bounds 3 2 2 2 2 3 (by decide) (by decide) (by decide)
      (by decide)).1 (by decide),
   (paginate_accepted_bounds 3 2 2 2 2 3 (by decide) (by decide) (by decide)
      (by decide)).2.2 [[Cell.int 1], [Cell.int 2], [Cell.int 3]] (by decide)⟩

/-- Claim C3 (confirmed): when the decoded table has no rows, every
requested page at least 1 (with a positive rows_per_page) is accepted and
the response is a success envelope with an empty data list, total_pages 0
and total_rows 0. -/
theorem get_data_empty_table_ok (w : World) (today : String) (req : Request)
    (url : String) (page rpp : Int) (payload : String) (fmt : FileFormat) (df0 : Table)
    (hv : validateParams req = .ok (url, page, rpp))
    (hpage : 1 ≤ page) (hr1 : 1 ≤ rpp)
    (hf : w.fetch url = .ok payload)
    (hd : detectFormat (fileExtension url) = some fmt)
    (hp : decodeTable w fmt payload = .ok df0)
    (hrows : df0.rows = []) :
    get_data w today req = .ok [] ⟨page, 0, 0, rpp⟩ := by
  have hne : rpp ≠ 0 := by omega
  have hpag : paginate 0 page rpp
      = .ok (0, (page - 1) * rpp, min ((page - 1) * rpp + rpp) 0) := by
    simp only [paginate, pyCeil_zero_left]
    rw [if_neg (by rintro (h | ⟨h, _⟩) <;> omega)]
  simp only [get_data, hv, hf, hd, hp, replaceNaN, hrows, List.map_nil,
    List.length_nil, Nat.cast_zero, if_neg hne, hpag, pySlice, List.take_nil,
    List.drop_nil]

/-- Witness for C3: the header-only CSV environment, page 3, returns an
empty page with total_pages 0 and total_rows 0 and no error. -/
theorem get_data_empty_table_ok_witness :
    get_data emptyCsvWorld "2026-10-12" ⟨some "http://h/f.csv", some "3", some "10"⟩
      = .ok [] ⟨3, 0, 0, 10⟩ :=
  get_data_empty_table_ok emptyCsvWorld "2026-10-12"
    ⟨some "http://h/f.csv", some "3", some "10"⟩ "http://h/f.csv" 3 10
    "id,name" .csv ⟨["id", "name"], []⟩
    (by decide) (by decide) (by decide) rfl (by decide) rfl rfl

/-- Claim C5 (confirmed): for a nonempty decoded table, a request whose
page is below 1 or above total_pages is answered with a 400 error whose
message cites the valid range 1-total_pages; the error carries no data. -/
theorem get_data_invalid_page_400 (w : World) (today : String) (req : Request)
    (url : String) (page rpp : Int) (payload : String) (fmt : FileFormat) (df0 : Table)
    (hv : validateParams req = .ok (url, page, rpp))
    (hr1 : 1 ≤ rpp)
    (hf : w.fetch url = .ok payload)
    (hd : detectFormat (fileExtension url) = some fmt)
    (hp : decodeTable w fmt payload = .ok df0)
    (ht : 0 < (df0.rows.length : Int))
    (hbad : page < 1 ∨ pyCeil (df0.rows.length : Int) rpp < page) :
    get_data w today req
      = .err 400 ("Invalid page number. Valid range: 1-"
          ++ toString (pyCeil (df0.rows.length : Int) rpp)) := by
  have hne : rpp ≠ 0 := by omega
  have hpag : paginate (df0.rows.length : Int) page rpp
      = .error ("Invalid page number. Valid range: 1-"
          ++ toString (pyCeil (df0.rows.length : Int) rpp)) := by
    simp only [paginate]
    rw [if_pos]
    rcases hbad with h | h
    · exact Or.inl h
    · exact Or.inr ⟨ht, h⟩
  simp only [get_data, hv, hf, hd, hp, replaceNaN, List.length_map,
    if_neg hne, hpag]

/-- Witness for C5: a one-row table with two rows per page has one page;
requesting page 5 yields the 400 invalid-page error citing range 1-1. -/
theorem get_data_invalid_page_400_witness :
    get_data oneRowWorld "2026-10-12" ⟨some "http://h/f.csv", some "5", some "2"⟩
      = .err 400 ("Invalid page number. Valid range: 1-"
          ++ toString (pyCeil (oneRowTable.rows.length : Int) 2)) :=
  get_data_invalid_page_400 oneRowWorld "2026-10-12"
    ⟨some "http://h/f.csv", some "5", some "2"⟩ "http://h/f.csv" 5 2
    "id" .csv oneRowTable
    (by decide) (by decide) rfl (by decide) rfl (by decide) (Or.inr (by decide))

/-- Folding the split-accumulator over characters none of which is a dot
appends them all to the accumulator. -/
lemma foldl_no_dot (l acc : List Char) (h : ∀ c ∈ l, c ≠ '.') :
    l.foldl (fun acc c => if c = '.' then [] else acc ++ [c]) acc = acc ++ l := by
  induction l generalizing acc with
  | nil => simp
  | cons c cs ih =>
    simp only [List.foldl_cons]
    rw [if_neg (h c (by simp))]
    rw [ih _ (fun d hd => h d (by simp [hd]))]
    simp

/-- The characters after the last dot of a string of the form a.b, when b
itself has no dot, are exactly the characters of b. -/
lemma afterLastDot_append (a b : String) (h : ∀ c ∈ b.toList, c ≠ '.') :
    afterLastDot (a ++ "." ++ b) = b.toList := by
  have hsplit : (a ++ "." ++ b).toList = a.toList ++ '.' :: b.toList := by
    show ((a ++ ".") ++ b).data = a.data ++ '.' :: b.data
    rw [String.data_append, String.data_append, List.append_assoc]
    rfl
  unfold afterLastDot
  rw [hsplit, List.foldl_append]
  simp only [List.foldl_cons, if_pos rfl, List.foldl_nil]
  simpa using foldl_no_dot b.toList [] h

/-- Claim C7 (confirmed): the dispatch extension is the substring after the
last dot of the URL, lowercased; the extension csv selects the CSV parser,
xlsx and xls select the spreadsheet parser, and any other extension makes
get_data answer 400 with the unsupported-format message. -/
theorem format_dispatch :
    (∀ a b : String, (∀ c ∈ b.toList, c ≠ '.') →
        fileExtension (a ++ "." ++ b) = String.mk (b.toList.map Char.toLower))
    ∧ (∀ ext, detectFormat ext = some FileFormat.csv ↔ ext = "csv")
    ∧ (∀ ext, detectFormat ext = some FileFormat.excel ↔ (ext = "xlsx" ∨ ext = "xls"))
    ∧ (∀ (w : World) (today : String) (req : Request) (url : String)
        (page rpp : Int) (payload : String),
        validateParams req = .ok (url, page, rpp) →
        w.fetch url = .ok payload →
        detectFormat (fileExtension url) = none →
        get_data w today req
          = .err 400 "Unsupported file format. Only .xlsx, .xls, and .csv are supported") := by
  refine ⟨?_, ?_, ?_, ?_⟩
  · intro a b h
    rw [fileExtension, afterLastDot_append a b h]
  · intro ext
    unfold detectFormat
    by_cases h1 : ext = "csv"
    · simp [h1]
    · by_cases h2 : ext = "xlsx" ∨ ext = "xls"
      · simp [h1, h2]
      · simp [h1, h2]
  · intro ext
    unfold detectFormat
    by_cases h1 : ext = "csv"
    · simp [h1]
    · by_cases h2 : ext = "xlsx" ∨ ext = "xls"
      · simp [h1, h2]
      · simp [h1, h2]
  · intro w today req url page rpp payload hv hf hd
    simp only [get_data, hv, hf, hd]

/-- Witness for C7: a .json URL is rejected with the unsupported-format
message. -/
theorem format_dispatch_witness :
    get_data emptyCsvWorld "2026-10-12" ⟨some "http://h/f.json", none, none⟩
      = .err 400 "Unsupported file format. Only .xlsx, .xls, and .csv are supported" :=
  format_dispatch.2.2.2 emptyCsvWorld "2026-10-12"
    ⟨some "http://h/f.json", none, none⟩ "http://h/f.json" 1 100 "id,name"
    (by decide) rfl (by decide)

/-- Claim C8 (confirmed): after the decode-stage replacement no NaN marker
survives in any row; a cell that was NaN in the source table serializes at
its column position as JSON null; and the serialization of a replaced NaN
is never a string sentinel. -/
theorem nan_serializes_null :
    (∀ (t : Table), ∀ r ∈ (replaceNaN t).rows, ∀ c ∈ r, c ≠ Cell.nan)
    ∧ (∀ (cols : List String) (r : List Cell) (j : Nat)
        (hj : j < r.length) (hc : j < cols.length)
        (h : j < (rowToJson cols (r.map replaceCell)).length),
        r.get ⟨j, hj⟩ = Cell.nan →
        (rowToJson cols (r.map replaceCell)).get ⟨j, h⟩
          = (cols.get ⟨j, hc⟩, Json.null))
    ∧ (∀ s : String, serializeCell (replaceCell Cell.nan) ≠ Json.str s) := by
  refine ⟨?_, ?_, ?_⟩
  · intro t r hr c hc
    simp only [replaceNaN, List.mem_map] at hr
    obtain ⟨r0, _, hr0⟩ := hr
    rw [← hr0] at hc
    simp only [List.mem_map] at hc
    obtain ⟨c0, _, hc0⟩ := hc
    rw [← hc0]
    cases c0 <;> simp [replaceCell]
  · intro cols r j hj hc h hnan
    have hget : r[j] = Cell.nan := by
      simpa using hnan
    simp [rowToJson, List.get_eq_getElem, List.getElem_zipWith, List.getElem_map,
      hget, replaceCell, serializeCell]
  · intro s
    simp [replaceCell, serializeCell]

/-- Witness for C8: the second cell of a row, NaN in the source, comes out
as JSON null under its column name. -/
theorem nan_serializes_null_witness :
    (rowToJson ["a", "b"] ([Cell.int 1, Cell.nan].map replaceCell)).get ⟨1, by decide⟩
      = ("b", Json.null) :=
  nan_serializes_null.2.1 ["a", "b"] [Cell.int 1, Cell.nan] 1
    (by decide) (by decide) (by decide) (by decide)

/-- Claim C9 (corrected), counterexample: a request with no url parameter
but a non-integer page is answered with the page-integer error, not with
the required-url error. -/
theorem missing_url_not_always_url_error :
    get_data emptyCsvWorld "2026-10-12" ⟨none, some "abc", none⟩
      = .err 400 "Page parameter must be a valid integer"
    ∧ get_data emptyCsvWorld "2026-10-12" ⟨none, some "abc", none⟩
      ≠ .err 400 "URL parameter is required" := by
  decide

/-- Claim C9 (amended): for every request whose url parameter is missing or
empty and whose page and rows_per_page parameters parse as integers (or are
absent), the response is a 400 error with the required-url message. -/
theorem get_data_missing_url_400 (w : World) (today : String) (req : Request)
    (h1 : (pageParam req).isSome) (h2 : (rppParam req).isSome)
    (hu : req.url.getD "" = "") :
    get_data w today req = .err 400 "URL parameter is required" := by
  obtain ⟨p, hp⟩ := Option.isSome_iff_exists.mp h1
  obtain ⟨r, hr⟩ := Option.isSome_iff_exists.mp h2
  simp only [get_data, validateParams, hp, hr, if_pos hu]

/-- Witness for C9: a request with integer page and rows_per_page and no
url gives the required-url error. -/
theorem get_data_missing_url_400_witness :
    get_data emptyCsvWorld "2026-10-12" ⟨none, some "2", some "50"⟩
      = .err 400 "URL parameter is required" :=
  get_data_missing_url_400 emptyCsvWorld "2026-10-12" ⟨none, some "2", some "50"⟩
    (by decide) (by decide) rfl

/-- Claim C10 (confirmed): the integer-parse checks run before the url
presence check, so with a missing url a non-integer page yields the
page-integer error, and a parsable page with a non-integer rows_per_page
yields the rows-per-page-integer error. -/
theorem parse_errors_precede_url_check :
    (∀ (w : World) (today : String) (r? : Option String) (s : String),
        pyParseInt s = none →
        get_data w today ⟨none, some s, r?⟩
          = .err 400 "Page parameter must be a valid integer")
    ∧ (∀ (w : World) (today : String) (p? : Option String) (s : String),
        (pageParam ⟨none, p?, some s⟩).isSome → pyParseInt s = none →
        get_data w today ⟨none, p?, some s⟩
          = .err 400 "Rows per page parameter must be a valid integer") := by
  constructor
  · intro w today r? s h
    have hp : pageParam ⟨none, some s, r?⟩ = none := h
    simp only [get_data, validateParams, hp]
  · intro w today p? s h1 h2
    obtain ⟨p, hp⟩ := Option.isSome_iff_exists.mp h1
    have hr : rppParam ⟨none, p?, some s⟩ = none := h2
    simp only [get_data, validateParams, hp, hr]

/-- Witness for C10: both orderings at concrete inputs with the url
missing. -/
theorem parse_errors_precede_url_check_witness :
    get_data emptyCsvWorld "2026-10-12" ⟨none, some "xyz", some "7"⟩
      = .err 400 "Page parameter must be a valid integer"
    ∧ get_data emptyCsvWorld "2026-10-12" ⟨none, some "4", some "zz"⟩
      = .err 400 "Rows per page parameter must be a valid integer" :=
  ⟨parse_errors_precede_url_check.1 emptyCsvWorld "2026-10-12" (some "7") "xyz"
      (by decide),
   parse_errors_precede_url_check.2 emptyCsvWorld "2026-10-12" (some "4") "zz"
      (by decide) (by decide)⟩

end ExcelToJSON
